import Mathlib

/-!
# Lake parameter initialisation: `read_lakeparam.c`

A shallow embedding of `read_lakeparam` and `get_dist`.

* C `double` and `float` values are embedded as elements of a linearly ordered
  field `α` with exact arithmetic (for instance `ℚ`, or `ℝ` where the
  trigonometric functions matter).  Rounding, infinities and NaN are not part
  of the embedding.
* C `int` values are embedded as `Int`; a conversion to floating point is the
  cast into `α`.
* The macros `PI`, `RADIUS`, `SURF` and `MAX_LAKE_NODES` come from `vicNl.h`,
  which is not part of the file, and the functions `cos`, `sin`, `acos`,
  `sqrt` and `pow` come from the C math library: they are the fields of `Env`.
* The local `lake_con_struct temp` is not initialised by the C code, so its
  initial contents are an explicit argument of the embedding.
-/

namespace LakeParam

/-- Constants of `vicNl.h` and functions of the C math library used by
`read_lakeparam.c`. -/
structure Env (α : Type) where
  PI : α
  RADIUS : α
  SURF : α
  MAX_LAKE_NODES : Int
  cos : α → α
  sin : α → α
  acos : α → α
  sqrt : α → α
  pow : α → α → α

/-- The fields of `soil_con_struct` that `read_lakeparam` reads. -/
structure soil_con_struct (α : Type) where
  gridcel : Int
  lat : α
  lng : α

/-- The fields of `lake_con_struct` that `read_lakeparam` reads or writes.
The arrays `Cl`, `basin` and `z` are functions of the index. -/
structure lake_con_struct (α : Type) where
  cell_area : α
  gridcel : Int
  maxdepth : α
  numnod : Int
  mindepth : α
  maxrate : α
  depth_in : α
  rpercent : α
  wetland_veg_class : Int
  bpercent : α
  b : α
  Cl : Nat → α
  basin : Nat → α
  z : Nat → α
  maxvolume : α

/-- One line of the lake parameter file, as the `fscanf` calls of
`read_lakeparam` consume it: the leading integer (read with `%d` into
`temp.gridcel`), the six general parameters, and the numbers that follow them
(`tail i` is the value read by the `i`-th later `fscanf(lakeparam, "%lf", ...)`). -/
structure ParamLine (α : Type) where
  gridcel : Int
  maxdepth : α
  numnod : Int
  mindepth : α
  maxrate : α
  depth_in : α
  rpercent : α
  tail : Nat → α

/-- The four calls of `nrerror` in `read_lakeparam`. -/
inductive Fatal where
  /-- "Unable to find cell %i in the lake parameter file, ..." -/
  | cell_not_found (gridcel : Int)
  /-- "Number of lake nodes exceeds the maximum allowable." -/
  | too_many_nodes
  /-- "Initial depth exceeds the specified maximum lake depth." -/
  | depth_in_exceeds_maxdepth
  /-- "Lake area must be a fraction between 0 and 1, check the lake parameter file." -/
  | bad_area_fraction
  deriving DecidableEq, Repr

/-- Modelled from the spec: `nrerror` is defined outside `read_lakeparam.c`;
by section 7 of the specification every error is reported immediately and
terminates initialisation with no partial result.  A run of `read_lakeparam`
therefore either ends in `fatal`, with the value `*Cv_sum` holds at that
moment, or returns `temp` (`done`), with the final value of `*Cv_sum`. -/
inductive Outcome (α : Type) where
  | fatal (err : Fatal) (Cv_sum : α)
  | done (temp : lake_con_struct α) (Cv_sum : α)

/-- Whether a run ended in `nrerror`. -/
def Outcome.isFatal {α : Type} : Outcome α → Bool
  | .fatal _ _ => true
  | .done _ _ => false

/-- The value of `*Cv_sum` when the run ends. -/
def Outcome.Cv_sum {α : Type} : Outcome α → α
  | .fatal _ c => c
  | .done _ c => c

/-- The returned structure, when the run returns. -/
def Outcome.temp {α : Type} : Outcome α → Option (lake_con_struct α)
  | .fatal _ _ => none
  | .done t _ => some t

section Embedding

variable {α : Type} [LinearOrderedField α]

/-! ### `get_dist` (lines 222-248) -/

/-- The argument handed to `acos` in `get_dist`: `term1+term2+term3`, replaced
by `1.0` when it exceeds `1.0` (lines 235-244). -/
def get_dist_arg (E : Env α) (lat1 long1 lat2 long2 : α) : α :=
  let dtor := 2 * E.PI / 360
  let theta1 := dtor * long1
  let phi1 := dtor * lat1
  let theta2 := dtor * long2
  let phi2 := dtor * lat2
  let term1 := E.cos phi1 * E.cos theta1 * E.cos phi2 * E.cos theta2
  let term2 := E.cos phi1 * E.sin theta1 * E.cos phi2 * E.sin theta2
  let term3 := E.sin phi1 * E.sin phi2
  let temp := term1 + term2 + term3
  if 1 < temp then 1 else temp

/-- `get_dist`: `distance = RADIUS*acos(temp)`. -/
def get_dist (E : Env α) (lat1 long1 lat2 long2 : α) : α :=
  E.RADIUS * E.acos (get_dist_arg E lat1 long1 lat2 long2)

/-! ### Grid cell area (lines 76-92) -/

/-- The first `k` iterations of the loop of lines 87-90 on the pair
`(dist, start_lat)`. -/
def strip_loop (E : Env α) (left_lng right_lng delta res : α) : Nat → α × α → α × α
  | 0, s => s
  | k + 1, s =>
    let s1 := strip_loop E left_lng right_lng delta res k s
    (s1.1 + get_dist E s1.2 left_lng s1.2 right_lng * delta, s1.2 + res / 10)

/-- Lines 76-92: the value stored in `temp.cell_area`. -/
def cell_area (E : Env α) (soil_lat soil_lng res : α) : α :=
  let lat := |soil_lat|
  let lng := |soil_lng|
  let start_lat := lat - res / 2
  let right_lng := lng + res / 2
  let left_lng := lng - res / 2
  let delta := get_dist E lat lng (lat + res / 10) lng
  let dist := (strip_loop E left_lng right_lng delta res 10 (0, start_lat)).1
  dist * 1000 * 1000

/-! ### Locating the grid cell (lines 116-126) -/

/-- The call `fscanf(lakeparam, "%d", &temp.gridcel)` at the start of a line.
At end of file nothing is stored, `temp.gridcel` keeps its value and the
indicator tested by `feof` is set (no current line: `none`); otherwise the
leading integer of the next line is stored and that line becomes the current
one. -/
def scan_gridcel (gridcel : Int) (file : List (ParamLine α)) :
    Int × Option (ParamLine α) × List (ParamLine α) :=
  match file with
  | [] => (gridcel, none, [])
  | r :: rest => (r.gridcel, some r, rest)

/-- The `while` loop of lines 117-120, run for at most `fuel` tests of its
condition.  Each iteration drops the rest of the current line (`fgets`) and
reads the leading integer of the next one.  `none`: the condition is still
true after `fuel` iterations.  `some cur`: the loop has ended on the current
line `cur`, where `cur = none` means that the end-of-file indicator is set. -/
def locate_loop (target : Int) :
    Nat → Int → Option (ParamLine α) → List (ParamLine α) → Option (Option (ParamLine α))
  | 0, _, _, _ => none
  | fuel + 1, gridcel, cur, file =>
    if gridcel ≠ target then
      let s := scan_gridcel gridcel file
      locate_loop target fuel s.1 s.2.1 s.2.2
    else some cur

/-- Lines 116-120: the first `fscanf` followed by the loop.  `gridcel0` is the
value `temp.gridcel` holds before the first `fscanf`. -/
def locate (target : Int) (fuel : Nat) (gridcel0 : Int) (file : List (ParamLine α)) :
    Option (Option (ParamLine α)) :=
  let s := scan_gridcel gridcel0 file
  locate_loop target fuel s.1 s.2.1 s.2.2

/-! ### Reading and processing the parameters (lines 129-212) -/

/-- The value assigned to the local `LAKE_PROFILE` at line 70. -/
def LAKE_PROFILE : Int := 1

/-- Lines 170-174: the iterations `i = 1, ..., k` of the loop of the branch
`!LAKE_PROFILE`. -/
def parabola_loop (E : Env α) (tempdz A : α) : Nat → lake_con_struct α → lake_con_struct α
  | 0, temp => temp
  | k + 1, temp =>
    let temp := parabola_loop E tempdz A k temp
    let i := k + 1
    let y := temp.maxdepth - E.SURF - tempdz * (i : α) / 2
    let x := E.pow (y / A) (1 / temp.b)
    { temp with basin := Function.update temp.basin i (E.PI * x * x) }

/-- Lines 184-193: the body of the first loop of the branch `LAKE_PROFILE`
for index `i`; `none` is the call of `nrerror` at line 193. -/
def area_step (E : Env α) (tempdz : α) (tail : Nat → α) (i : Nat)
    (temp : lake_con_struct α) : Option (lake_con_struct α) :=
  let temp := { temp with Cl := Function.update temp.Cl i (tail i) }
  let temp := { temp with basin := Function.update temp.basin i (temp.Cl i * temp.cell_area) }
  let temp :=
    if i = 0 then
      { temp with z := Function.update temp.z i (((temp.numnod : α) - 1) * tempdz + E.SURF) }
    else
      { temp with z := Function.update temp.z i (((temp.numnod - (i : Int) : Int) : α) * tempdz) }
  if temp.Cl i < 0 ∨ temp.Cl i > 1 then none else some temp

/-- Lines 183-194: the first `k` iterations of the loop. -/
def area_loop (E : Env α) (tempdz : α) (tail : Nat → α) :
    Nat → lake_con_struct α → Option (lake_con_struct α)
  | 0, temp => some temp
  | k + 1, temp =>
    match area_loop E tempdz tail k temp with
    | none => none
    | some temp1 => area_step E tempdz tail k temp1

/-- Lines 197-202: the body of the second loop for index `i`. -/
def volume_step (E : Env α) (tempdz : α) (i : Nat) (temp : lake_con_struct α) :
    lake_con_struct α :=
  if i = 0 then
    { temp with maxvolume := temp.maxvolume + (temp.basin 0 + temp.basin 1) * E.SURF / 2 }
  else if (i : Int) < temp.numnod - 1 then
    { temp with maxvolume := temp.maxvolume + (temp.basin i + temp.basin (i + 1)) * tempdz / 2 }
  else
    { temp with maxvolume := temp.maxvolume + temp.basin i * tempdz }

/-- Lines 196-203: the first `k` iterations of the loop. -/
def volume_loop (E : Env α) (tempdz : α) : Nat → lake_con_struct α → lake_con_struct α
  | 0, temp => temp
  | k + 1, temp => volume_step E tempdz k (volume_loop E tempdz k temp)

/-- Lines 206-212: the lake fraction is added to `*Cv_sum`. -/
def add_lake_fraction (temp : lake_con_struct α) (Cv_sum : α) : Outcome α :=
  let Cv_sum := Cv_sum + temp.Cl 0
  if Cv_sum > 0.999 then
    .done { temp with Cl := Function.update temp.Cl 0 (temp.Cl 0 + (1 - Cv_sum)) } 1
  else
    .done temp Cv_sum

/-- Lines 129-212: everything `read_lakeparam` does once the line `r` of the
current grid cell is located; `temp` already holds `cell_area` and `gridcel`. -/
def read_params (E : Env α) (temp : lake_con_struct α) (r : ParamLine α) (Cv_sum : α) :
    Outcome α :=
  let temp := { temp with maxdepth := r.maxdepth, numnod := r.numnod }
  let temp := { temp with mindepth := r.mindepth, maxrate := r.maxrate }
  let temp := { temp with depth_in := r.depth_in }
  let temp := { temp with rpercent := r.rpercent }
  let temp := { temp with wetland_veg_class := 0 }
  let temp := { temp with bpercent := 0 }
  if temp.numnod > E.MAX_LAKE_NODES then .fatal .too_many_nodes Cv_sum
  else if temp.depth_in > temp.maxdepth then .fatal .depth_in_exceeds_maxdepth Cv_sum
  else
    let tempdz := (temp.maxdepth - E.SURF) / ((temp.numnod : α) - 1)
    if LAKE_PROFILE = 0 then
      let temp := { temp with Cl := Function.update temp.Cl 0 (r.tail 0) }
      let temp := { temp with b := r.tail 1 }
      let temp := { temp with basin := Function.update temp.basin 0 (temp.Cl 0 * temp.cell_area) }
      let radius := E.sqrt (temp.basin 0 / E.PI)
      let A := temp.maxdepth / E.pow radius temp.b
      let temp := parabola_loop E tempdz A (temp.numnod.toNat - 1) temp
      add_lake_fraction temp Cv_sum
    else
      let temp := { temp with maxvolume := 0 }
      match area_loop E tempdz r.tail temp.numnod.toNat temp with
      | none => .fatal .bad_area_fraction Cv_sum
      | some temp =>
        let temp := volume_loop E tempdz temp.numnod.toNat temp
        add_lake_fraction temp Cv_sum

/-- `read_lakeparam`.  `file` is the parameter file from the position where
the scan starts, `temp0` the initial contents of the local `temp`, `Cv_sum`
the value of `*Cv_sum` at the call, and `fuel` bounds the number of tests of
the condition of the `while` loop: the result is `none` when the loop is still
running after `fuel` tests. -/
def read_lakeparam (E : Env α) (fuel : Nat) (temp0 : lake_con_struct α)
    (file : List (ParamLine α)) (soil_con : soil_con_struct α) (res : α) (Cv_sum : α) :
    Option (Outcome α) :=
  let temp := { temp0 with cell_area := cell_area E soil_con.lat soil_con.lng res }
  match locate soil_con.gridcel fuel temp.gridcel file with
  | none => none
  | some none => some (.fatal (.cell_not_found soil_con.gridcel) Cv_sum)
  | some (some r) => some (read_params E { temp with gridcel := r.gridcel } r Cv_sum)

/-! ### Closed forms used in the proofs -/

/-- The depth stored in `temp.z[i]` at lines 187-190. -/
def node_depth (E : Env α) (tempdz : α) (numnod : Int) (i : Nat) : α :=
  if i = 0 then ((numnod : α) - 1) * tempdz + E.SURF
  else ((numnod - (i : Int) : Int) : α) * tempdz

/-- The structure `area_loop` produces from `temp` after `k` iterations that
did not call `nrerror`. -/
def area_result (E : Env α) (tempdz : α) (tail : Nat → α) (k : Nat)
    (temp : lake_con_struct α) : lake_con_struct α :=
  { temp with
    Cl := fun j => if j < k then tail j else temp.Cl j
    basin := fun j => if j < k then tail j * temp.cell_area else temp.basin j
    z := fun j => if j < k then node_depth E tempdz temp.numnod j else temp.z j }

/-- The amount line 198, 200 or 202 adds to `temp.maxvolume` for index `i`. -/
def volume_term (E : Env α) (tempdz : α) (temp : lake_con_struct α) (i : Nat) : α :=
  if i = 0 then (temp.basin 0 + temp.basin 1) * E.SURF / 2
  else if (i : Int) < temp.numnod - 1 then (temp.basin i + temp.basin (i + 1)) * tempdz / 2
  else temp.basin i * tempdz

/-- The structure `temp` after lines 129-134 and 182, before the first loop. -/
def params_read (temp : lake_con_struct α) (r : ParamLine α) : lake_con_struct α :=
  { temp with
    maxdepth := r.maxdepth
    numnod := r.numnod
    mindepth := r.mindepth
    maxrate := r.maxrate
    depth_in := r.depth_in
    rpercent := r.rpercent
    wetland_veg_class := 0
    bpercent := 0
    maxvolume := 0 }

/-- The layer thickness `tempdz` of line 147 for the line `r`. -/
def layer_dz (E : Env α) (r : ParamLine α) : α :=
  (r.maxdepth - E.SURF) / ((r.numnod : α) - 1)

/-- The indices of `temp.basin` read by line 198, 200 or 202 for index `i`. -/
def volume_reads (numnod : Int) (i : Nat) : List Nat :=
  if i = 0 then [0, 1]
  else if (i : Int) < numnod - 1 then [i, i + 1]
  else [i]

end Embedding

/-- The environment over the real numbers: the math library functions are the
real functions, the constants of `vicNl.h` are arguments. -/
noncomputable def libm (PI RADIUS SURF : ℝ) (MAX_LAKE_NODES : Int) : Env ℝ where
  PI := PI
  RADIUS := RADIUS
  SURF := SURF
  MAX_LAKE_NODES := MAX_LAKE_NODES
  cos := Real.cos
  sin := Real.sin
  acos := Real.arccos
  sqrt := Real.sqrt
  pow := fun x y => x ^ y

/-! ### Sample inputs -/

/-- An environment with `SURF = 1` and `MAX_LAKE_NODES = 20`. -/
noncomputable def E_unit : Env ℝ := libm 3.1415927 6371.228 1 20

/-- Initial contents of `temp` with a grid cell area of 100 square metres. -/
def temp_100 : lake_con_struct ℝ :=
  { cell_area := 100, gridcel := 0, maxdepth := 0, numnod := 0, mindepth := 0, maxrate := 0,
    depth_in := 0, rpercent := 0, wetland_veg_class := 0, bpercent := 0, b := 0,
    Cl := fun _ => 0, basin := fun _ => 0, z := fun _ => 0, maxvolume := 0 }

/-- A line for grid cell 1: maximum depth 5, three nodes with area fractions
1, 0.6 and 0.2. -/
noncomputable def line_3 : ParamLine ℝ :=
  { gridcel := 1, maxdepth := 5, numnod := 3, mindepth := 1, maxrate := 0.08, depth_in := 4,
    rpercent := 0.5, tail := fun i => if i = 0 then 1 else if i = 1 then 0.6 else 0.2 }

/-- A line for grid cell 1 whose first area fraction is 0.002. -/
noncomputable def line_small : ParamLine ℝ :=
  { gridcel := 1, maxdepth := 5, numnod := 3, mindepth := 1, maxrate := 0.08, depth_in := 4,
    rpercent := 0.5, tail := fun i => if i = 0 then 0.002 else 0.001 }

/-- A line for grid cell 1 that declares 21 nodes. -/
noncomputable def line_21 : ParamLine ℝ :=
  { gridcel := 1, maxdepth := 5, numnod := 21, mindepth := 1, maxrate := 0.08, depth_in := 4,
    rpercent := 0.5, tail := fun _ => 0.5 }

/-- Grid cell 1, at 45 degrees north and 10 degrees east. -/
def cell_1 : soil_con_struct ℝ := { gridcel := 1, lat := 45, lng := 10 }

/-- Grid cell 2, at 45 degrees north and 11 degrees east. -/
def cell_2 : soil_con_struct ℝ := { gridcel := 2, lat := 45, lng := 11 }

/-- A line for grid cell 1 whose area fractions rise with the node index:
0.2, 0.6 and 1. -/
noncomputable def line_rising : ParamLine ℝ :=
  { gridcel := 1, maxdepth := 5, numnod := 3, mindepth := 1, maxrate := 0.08, depth_in := 4,
    rpercent := 0.5, tail := fun i => if i = 0 then 0.2 else if i = 1 then 0.6 else 1 }

/-- Other initial contents of `temp`: the same grid cell area of 100 square
metres, and 7 in every array entry and in the remaining fields. -/
def temp_other : lake_con_struct ℝ :=
  { cell_area := 100, gridcel := 7, maxdepth := 7, numnod := 7, mindepth := 7, maxrate := 7,
    depth_in := 7, rpercent := 7, wetland_veg_class := 7, bpercent := 7, b := 7,
    Cl := fun _ => 7, basin := fun _ => 7, z := fun _ => 7, maxvolume := 7 }

/-! ## Theorems -/

section Scan

variable {α : Type}

/-- While neither the stored cell number nor any remaining line matches, the
loop does not end. -/
theorem locate_loop_spins (target : Int) (fuel : Nat) :
    ∀ (gridcel : Int) (cur : Option (ParamLine α)) (file : List (ParamLine α)),
      gridcel ≠ target → (∀ r ∈ file, r.gridcel ≠ target) →
      locate_loop target fuel gridcel cur file = none := by
  induction fuel with
  | zero => intro _ _ _ _ _; rfl
  | succ n ih =>
    intro gridcel cur file hg hfile
    rw [locate_loop, if_pos hg]
    cases file with
    | nil => exact ih gridcel none [] hg hfile
    | cons r rest =>
      exact ih r.gridcel (some r) rest (hfile r (List.mem_cons_self r rest))
        (fun x hx => hfile x (List.mem_cons_of_mem r hx))

end Scan

section Lemmas

variable {α : Type} [LinearOrderedField α]

theorem area_step_eq (E : Env α) (tempdz : α) (tail : Nat → α) (i : Nat)
    (temp : lake_con_struct α) :
    area_step E tempdz tail i temp =
      if tail i < 0 ∨ tail i > 1 then none
      else some { temp with
        Cl := Function.update temp.Cl i (tail i)
        basin := Function.update temp.basin i (tail i * temp.cell_area)
        z := Function.update temp.z i (node_depth E tempdz temp.numnod i) } := by
  by_cases hi : i = 0
  · subst hi
    simp [area_step, node_depth]
  · simp [area_step, node_depth, hi]

theorem update_ite_lt {β : Type} (f g : Nat → β) (k : Nat) :
    Function.update (fun j => if j < k then f j else g j) k (f k) =
      fun j => if j < k + 1 then f j else g j := by
  funext j
  by_cases hj : j = k
  · subst hj; simp
  · rw [Function.update_noteq hj]
    have : (j < k + 1) ↔ (j < k) := by omega
    simp only [this]

theorem area_loop_eq (E : Env α) (tempdz : α) (tail : Nat → α) (k : Nat)
    (temp : lake_con_struct α) :
    area_loop E tempdz tail k temp =
      if ∀ j, j < k → (0 ≤ tail j ∧ tail j ≤ 1) then some (area_result E tempdz tail k temp)
      else none := by
  induction k with
  | zero =>
    simp [area_loop, area_result]
  | succ k ih =>
    rw [area_loop, ih]
    by_cases hk : ∀ j, j < k → (0 ≤ tail j ∧ tail j ≤ 1)
    · rw [if_pos hk]
      by_cases hlast : 0 ≤ tail k ∧ tail k ≤ 1
      · have hall : ∀ j, j < k + 1 → (0 ≤ tail j ∧ tail j ≤ 1) := by
          intro j hj
          rcases Nat.lt_succ_iff_lt_or_eq.mp hj with h | h
          · exact hk j h
          · rw [h]; exact hlast
        have hbad : ¬ (tail k < 0 ∨ tail k > 1) := by
          rintro (h | h)
          · exact absurd hlast.1 (not_le.mpr h)
          · exact absurd hlast.2 (not_le.mpr h)
        rw [if_pos hall]
        simp only [area_step_eq, if_neg hbad, area_result]
        have h1 := update_ite_lt tail temp.Cl k
        have h2 := update_ite_lt (fun j => tail j * temp.cell_area) temp.basin k
        have h3 := update_ite_lt (fun j => node_depth E tempdz temp.numnod j) temp.z k
        simp only [] at h2 h3
        rw [h1, h2, h3]
      · have hall : ¬ ∀ j, j < k + 1 → (0 ≤ tail j ∧ tail j ≤ 1) :=
          fun h => hlast (h k (Nat.lt_succ_self k))
        have hbad : tail k < 0 ∨ tail k > 1 := by
          by_contra hc
          push_neg at hc
          exact hlast hc
        rw [if_neg hall]
        simp only [area_step_eq, if_pos hbad]
    · have hall : ¬ ∀ j, j < k + 1 → (0 ≤ tail j ∧ tail j ≤ 1) :=
        fun h => hk (fun j hj => h j (Nat.lt_succ_of_lt hj))
      rw [if_neg hk, if_neg hall]

theorem volume_step_eq (E : Env α) (tempdz : α) (i : Nat) (temp : lake_con_struct α) :
    volume_step E tempdz i temp =
      { temp with maxvolume := temp.maxvolume + volume_term E tempdz temp i } := by
  unfold volume_step volume_term
  split_ifs <;> rfl

theorem volume_loop_eq (E : Env α) (tempdz : α) (k : Nat) (temp : lake_con_struct α) :
    volume_loop E tempdz k temp =
      { temp with
        maxvolume := temp.maxvolume + ∑ i ∈ Finset.range k, volume_term E tempdz temp i } := by
  induction k with
  | zero => simp [volume_loop]
  | succ k ih =>
    rw [volume_loop, ih, volume_step_eq, Finset.sum_range_succ]
    simp only [volume_term, add_assoc]

/-- Lines 129-212 in closed form: the three validations, then the two loops
and the update of `*Cv_sum`. -/
theorem read_params_eq (E : Env α) (temp : lake_con_struct α) (r : ParamLine α) (Cv_sum : α) :
    read_params E temp r Cv_sum =
      if E.MAX_LAKE_NODES < r.numnod then .fatal .too_many_nodes Cv_sum
      else if r.maxdepth < r.depth_in then .fatal .depth_in_exceeds_maxdepth Cv_sum
      else if ∀ j, j < r.numnod.toNat → (0 ≤ r.tail j ∧ r.tail j ≤ 1) then
        add_lake_fraction
          (volume_loop E (layer_dz E r) r.numnod.toNat
            (area_result E (layer_dz E r) r.tail r.numnod.toNat (params_read temp r))) Cv_sum
      else .fatal .bad_area_fraction Cv_sum := by
  unfold read_params
  simp only [gt_iff_lt, LAKE_PROFILE, one_ne_zero, if_false, area_loop_eq]
  split_ifs <;> rfl

theorem read_params_done (E : Env α) (temp : lake_con_struct α) (r : ParamLine α) (Cv_sum : α)
    (t : lake_con_struct α) (cv : α) (h : read_params E temp r Cv_sum = .done t cv) :
    ¬ E.MAX_LAKE_NODES < r.numnod ∧ ¬ r.maxdepth < r.depth_in ∧
      (∀ j, j < r.numnod.toNat → (0 ≤ r.tail j ∧ r.tail j ≤ 1)) ∧
      add_lake_fraction
        (volume_loop E (layer_dz E r) r.numnod.toNat
          (area_result E (layer_dz E r) r.tail r.numnod.toNat (params_read temp r))) Cv_sum
        = .done t cv := by
  rw [read_params_eq] at h
  split_ifs at h with h1 h2 h3
  exact ⟨h1, h2, h3, h⟩

theorem read_params_accepts (E : Env α) (temp : lake_con_struct α) (r : ParamLine α)
    (Cv_sum : α) (h1 : r.numnod ≤ E.MAX_LAKE_NODES) (h2 : r.depth_in ≤ r.maxdepth)
    (h3 : ∀ j, j < r.numnod.toNat → (0 ≤ r.tail j ∧ r.tail j ≤ 1)) :
    ∃ t cv, read_params E temp r Cv_sum = .done t cv := by
  rw [read_params_eq, if_neg (not_lt.mpr h1), if_neg (not_lt.mpr h2), if_pos h3]
  unfold add_lake_fraction
  simp only []
  split_ifs
  · exact ⟨_, _, rfl⟩
  · exact ⟨_, _, rfl⟩

theorem add_lake_fraction_done (temp t : lake_con_struct α) (c cv : α)
    (h : add_lake_fraction temp c = .done t cv) :
    t.cell_area = temp.cell_area ∧ t.numnod = temp.numnod ∧ t.maxdepth = temp.maxdepth ∧
      t.basin = temp.basin ∧ t.z = temp.z ∧ t.maxvolume = temp.maxvolume ∧
      (0.999 < c + temp.Cl 0 → cv = 1 ∧ t.Cl 0 = temp.Cl 0 + (1 - (c + temp.Cl 0))) ∧
      (¬ 0.999 < c + temp.Cl 0 → cv = c + temp.Cl 0 ∧ t.Cl = temp.Cl) ∧
      (∀ j, j ≠ 0 → t.Cl j = temp.Cl j) := by
  unfold add_lake_fraction at h
  simp only [gt_iff_lt] at h
  split_ifs at h with hc
  · injection h with h1 h2
    subst h1 h2
    refine ⟨rfl, rfl, rfl, rfl, rfl, rfl, ?_, ?_, ?_⟩
    · intro _; simp
    · intro hn; exact absurd hc hn
    · intro j hj; simp [Function.update_noteq hj]
  · injection h with h1 h2
    subst h1 h2
    refine ⟨rfl, rfl, rfl, rfl, rfl, rfl, ?_, ?_, ?_⟩
    · intro hn; exact absurd hn hc
    · intro _; exact ⟨rfl, rfl⟩
    · intro j _; rfl

/-- The sum over all indices below `m + 2` splits into the first index, the
interior indices and the last index. -/
theorem sum_range_split (f : Nat → α) (m : Nat) :
    ∑ i ∈ Finset.range (m + 2), f i =
      f 0 + ∑ i ∈ Finset.Ioo 0 (m + 1), f i + f (m + 1) := by
  rw [Finset.sum_range_succ, Finset.sum_range_succ']
  have : Finset.Ioo 0 (m + 1) = Finset.Ico 1 (m + 1) := by
    ext i; simp [Finset.mem_Ioo, Finset.mem_Ico]; omega
  rw [this, Finset.sum_Ico_eq_sum_range]
  simp only [Nat.add_sub_cancel]
  have : ∑ k ∈ Finset.range m, f (k + 1) = ∑ k ∈ Finset.range m, f (1 + k) := by
    apply Finset.sum_congr rfl; intro k _; rw [add_comm]
  rw [this]; ring


/-- What a returned structure holds, field by field. -/
theorem read_params_fields (E : Env α) (temp : lake_con_struct α) (r : ParamLine α) (c : α)
    (t : lake_con_struct α) (cv : α) (h : read_params E temp r c = .done t cv) :
    t.cell_area = temp.cell_area ∧ t.numnod = r.numnod ∧ t.maxdepth = r.maxdepth ∧
      (∀ j, t.basin j = if j < r.numnod.toNat then r.tail j * temp.cell_area else temp.basin j) ∧
      (∀ j, t.z j =
        if j < r.numnod.toNat then node_depth E (layer_dz E r) r.numnod j else temp.z j) ∧
      t.maxvolume =
        ∑ i ∈ Finset.range r.numnod.toNat,
          volume_term E (layer_dz E r)
            (area_result E (layer_dz E r) r.tail r.numnod.toNat (params_read temp r)) i := by
  obtain ⟨_, _, _, h4⟩ := read_params_done E temp r c t cv h
  rw [volume_loop_eq] at h4
  obtain ⟨e1, e2, e3, e4, e5, e6, _⟩ := add_lake_fraction_done _ t c cv h4
  refine ⟨e1, e2, e3, ?_, ?_, ?_⟩
  · intro j; rw [e4]; rfl
  · intro j; rw [e5]; rfl
  · rw [e6]; simp [area_result, params_read]

/-- C1: for an accepted line with at least two nodes, the returned `maxvolume` is
`(basin[0]+basin[1])*SURF/2`, plus the sum over `0 < i < numnod-1` of
`(basin[i]+basin[i+1])*tempdz/2`, plus `basin[numnod-1]*tempdz`, where
`tempdz = (maxdepth - SURF)/(numnod - 1)`.  Stated for `read_params`, which
`read_lakeparam` runs on the located line (`read_lakeparam_of_locate`), so
that it holds for every value of `temp.cell_area`. -/
theorem maxvolume_closed_form (E : Env α) (temp : lake_con_struct α) (r : ParamLine α) (c : α)
    (t : lake_con_struct α) (cv : α) (hacc : read_params E temp r c = .done t cv)
    (h2 : 2 ≤ r.numnod) :
    t.maxvolume =
      (t.basin 0 + t.basin 1) * E.SURF / 2
        + ∑ i ∈ Finset.Ioo 0 (r.numnod.toNat - 1),
            (t.basin i + t.basin (i + 1)) * layer_dz E r / 2
        + t.basin (r.numnod.toNat - 1) * layer_dz E r := by
  obtain ⟨_, _, _, hb, _, hv⟩ := read_params_fields E temp r c t cv hacc
  obtain ⟨m, hm⟩ : ∃ m : Nat, r.numnod.toNat = m + 2 := ⟨r.numnod.toNat - 2, by omega⟩
  have hn : r.numnod = ((m + 2 : Nat) : Int) := by omega
  rw [hv, hm, sum_range_split]
  have hbasin : ∀ j, (area_result E (layer_dz E r) r.tail (m + 2) (params_read temp r)).basin j
      = t.basin j := by
    intro j; rw [hb j, hm]; rfl
  have h0 : volume_term E (layer_dz E r)
      (area_result E (layer_dz E r) r.tail (m + 2) (params_read temp r)) 0
      = (t.basin 0 + t.basin 1) * E.SURF / 2 := by
    simp only [volume_term, if_true, hbasin]
  have hlast : volume_term E (layer_dz E r)
      (area_result E (layer_dz E r) r.tail (m + 2) (params_read temp r)) (m + 1)
      = t.basin (m + 1) * layer_dz E r := by
    have hnum : (area_result E (layer_dz E r) r.tail (m + 2) (params_read temp r)).numnod
        = r.numnod := rfl
    have hc : ¬ (((m + 1 : Nat) : Int) < r.numnod - 1) := by omega
    simp only [volume_term, hnum, if_neg (Nat.succ_ne_zero m), if_neg hc, hbasin]
  have hmid : ∑ i ∈ Finset.Ioo 0 (m + 1), volume_term E (layer_dz E r)
      (area_result E (layer_dz E r) r.tail (m + 2) (params_read temp r)) i
      = ∑ i ∈ Finset.Ioo 0 (m + 1), (t.basin i + t.basin (i + 1)) * layer_dz E r / 2 := by
    apply Finset.sum_congr rfl
    intro i hi
    rw [Finset.mem_Ioo] at hi
    have hnum : (area_result E (layer_dz E r) r.tail (m + 2) (params_read temp r)).numnod
        = r.numnod := rfl
    have hi0 : i ≠ 0 := by omega
    have hc : ((i : Nat) : Int) < r.numnod - 1 := by omega
    simp only [volume_term, hnum, if_neg hi0, if_pos hc, hbasin]
  rw [h0, hlast, hmid]
  rfl

/-- When the scan ends on the line `r`, `read_lakeparam` is `read_params` on
that line, with the computed grid cell area stored in `temp.cell_area`. -/
theorem read_lakeparam_of_locate (E : Env α) (fuel : Nat) (temp0 : lake_con_struct α)
    (file : List (ParamLine α)) (soil_con : soil_con_struct α) (res c : α) (r : ParamLine α)
    (hloc : locate soil_con.gridcel fuel temp0.gridcel file = some (some r)) :
    read_lakeparam E fuel temp0 file soil_con res c =
      some (read_params E
        { temp0 with
          cell_area := cell_area E soil_con.lat soil_con.lng res
          gridcel := r.gridcel } r c) := by
  unfold read_lakeparam
  simp only [hloc]

theorem read_params_isFatal (E : Env α) (temp : lake_con_struct α) (r : ParamLine α) (c : α) :
    (read_params E temp r c).isFatal = true ↔
      (E.MAX_LAKE_NODES < r.numnod ∨ r.maxdepth < r.depth_in ∨
        ∃ i : Nat, (i : Int) < r.numnod ∧ (r.tail i < 0 ∨ 1 < r.tail i)) := by
  rw [read_params_eq]
  by_cases h1 : E.MAX_LAKE_NODES < r.numnod
  · simp [h1, Outcome.isFatal]
  rw [if_neg h1]
  by_cases h2 : r.maxdepth < r.depth_in
  · simp [h2, Outcome.isFatal]
  rw [if_neg h2]
  by_cases h3 : ∀ j, j < r.numnod.toNat → (0 ≤ r.tail j ∧ r.tail j ≤ 1)
  · rw [if_pos h3]
    have hd : (add_lake_fraction
        (volume_loop E (layer_dz E r) r.numnod.toNat
          (area_result E (layer_dz E r) r.tail r.numnod.toNat (params_read temp r))) c).isFatal
        = false := by
      unfold add_lake_fraction
      simp only []
      split_ifs <;> rfl
    rw [hd]
    constructor
    · intro h; exact absurd h (by simp)
    · rintro (h | h | ⟨i, hi, hbad⟩)
      · exact absurd h h1
      · exact absurd h h2
      · have hlt : i < r.numnod.toNat := by omega
        obtain ⟨ha, hb⟩ := h3 i hlt
        rcases hbad with hbad | hbad
        · exact absurd ha (not_le.mpr hbad)
        · exact absurd hb (not_le.mpr hbad)
  · rw [if_neg h3]
    simp only [Outcome.isFatal, true_iff]
    right; right
    push_neg at h3
    obtain ⟨j, hj, hbad⟩ := h3
    refine ⟨j, by omega, ?_⟩
    by_cases h0 : r.tail j < 0
    · exact Or.inl h0
    · exact Or.inr (hbad (not_lt.mp h0))

/-- C3: when the scan ends on the line `r`, `read_lakeparam` returns or fails,
and it fails fatally exactly when `numnod > MAX_LAKE_NODES`, or
`depth_in > maxdepth`, or some area fraction with index below `numnod` is
below 0 or above 1. -/
theorem fatal_iff_validation_fails (E : Env α) (fuel : Nat) (temp0 : lake_con_struct α)
    (file : List (ParamLine α)) (soil_con : soil_con_struct α) (res c : α) (r : ParamLine α)
    (hloc : locate soil_con.gridcel fuel temp0.gridcel file = some (some r)) :
    ∃ o, read_lakeparam E fuel temp0 file soil_con res c = some o ∧
      (o.isFatal = true ↔
        (r.numnod > E.MAX_LAKE_NODES ∨ r.depth_in > r.maxdepth ∨
          ∃ i : Nat, (i : Int) < r.numnod ∧ (r.tail i < 0 ∨ r.tail i > 1))) := by
  refine ⟨_, read_lakeparam_of_locate E fuel temp0 file soil_con res c r hloc, ?_⟩
  exact read_params_isFatal E _ r c

/-- C5: for an accepted line and every `i < numnod`, the returned `basin[i]` is
the area fraction read for node `i` times the computed grid cell area, also
for `i = 0` when `Cl[0]` is changed at line 210. -/
theorem basin_eq_fraction_times_cell_area (E : Env α) (fuel : Nat) (temp0 : lake_con_struct α)
    (file : List (ParamLine α)) (soil_con : soil_con_struct α) (res c : α) (r : ParamLine α)
    (t : lake_con_struct α) (cv : α)
    (hloc : locate soil_con.gridcel fuel temp0.gridcel file = some (some r))
    (hacc : read_lakeparam E fuel temp0 file soil_con res c = some (.done t cv))
    (i : Nat) (hi : (i : Int) < r.numnod) :
    t.cell_area = cell_area E soil_con.lat soil_con.lng res ∧
      t.basin i = r.tail i * cell_area E soil_con.lat soil_con.lng res := by
  rw [read_lakeparam_of_locate E fuel temp0 file soil_con res c r hloc] at hacc
  have hacc1 := Option.some.inj hacc
  obtain ⟨e1, _, _, hb, _, _⟩ := read_params_fields E _ r c t cv hacc1
  refine ⟨e1, ?_⟩
  have hlt : i < r.numnod.toNat := by omega
  rw [hb i, if_pos hlt]

/-- C4: when no line of the file starts with the requested cell number (and
the file is not empty, or the initial `temp.gridcel` differs from it), the
`while` loop of lines 117-120 is still running after any number of tests of
its condition: `read_lakeparam` never reaches the end-of-file test of line 123
and never reports the error. -/
theorem scan_without_match_never_ends (E : Env α) (temp0 : lake_con_struct α)
    (file : List (ParamLine α)) (soil_con : soil_con_struct α) (res c : α)
    (hno : ∀ r ∈ file, r.gridcel ≠ soil_con.gridcel)
    (hstart : file ≠ [] ∨ temp0.gridcel ≠ soil_con.gridcel) :
    ∀ fuel : Nat, read_lakeparam E fuel temp0 file soil_con res c = none := by
  intro fuel
  have hloc : locate soil_con.gridcel fuel temp0.gridcel file = none := by
    unfold locate
    cases file with
    | nil =>
      rcases hstart with h | h
      · exact absurd rfl h
      · exact locate_loop_spins soil_con.gridcel fuel temp0.gridcel none [] h hno
    | cons r rest =>
      exact locate_loop_spins soil_con.gridcel fuel r.gridcel (some r) rest
        (hno r (List.mem_cons_self r rest)) (fun x hx => hno x (List.mem_cons_of_mem r hx))
  unfold read_lakeparam
  simp only [hloc]

end Lemmas

theorem line_3_tail_ok :
    ∀ j, j < line_3.numnod.toNat → (0 ≤ line_3.tail j ∧ line_3.tail j ≤ 1) := by
  intro j _
  simp only [line_3]
  split_ifs <;> norm_num

/-- Areas 100, 60, 20 with `tempdz = 2` and `SURF = 1` give the volume 200. -/
theorem maxvolume_closed_form_witness :
    (read_params E_unit temp_100 line_3 0).temp.map (fun t => t.maxvolume) = some 200 := by
  obtain ⟨t, cv, h⟩ := read_params_accepts E_unit temp_100 line_3 0
    (by norm_num [line_3, E_unit, libm]) (by norm_num [line_3]) line_3_tail_ok
  have hv := maxvolume_closed_form E_unit temp_100 line_3 0 t cv h (by norm_num [line_3])
  obtain ⟨_, _, _, hb, _, _⟩ := read_params_fields E_unit temp_100 line_3 0 t cv h
  have hn : line_3.numnod.toNat = 3 := rfl
  have hI : Finset.Ioo 0 (3 - 1) = ({1} : Finset Nat) := by decide
  have hdz : layer_dz E_unit line_3 = 2 := by
    norm_num [layer_dz, line_3, E_unit, libm]
  have hS : E_unit.SURF = 1 := rfl
  rw [hn, hI, Finset.sum_singleton, hdz, hS, hb 0, hb 1, hb 2, hn] at hv
  rw [h]
  simp only [Outcome.temp, Option.map_some']
  rw [hv]
  norm_num [line_3, temp_100]


theorem line_small_tail_ok :
    ∀ j, j < line_small.numnod.toNat → (0 ≤ line_small.tail j ∧ line_small.tail j ≤ 1) := by
  intro j _
  simp only [line_small]
  split_ifs <;> norm_num

theorem locate_line_3 : locate cell_1.gridcel 1 temp_100.gridcel [line_3] = some (some line_3) := by
  simp [locate, locate_loop, scan_gridcel, cell_1, line_3]

theorem locate_line_21 :
    locate cell_1.gridcel 1 temp_100.gridcel [line_21] = some (some line_21) := by
  simp [locate, locate_loop, scan_gridcel, cell_1, line_21]

/-- A line that declares `MAX_LAKE_NODES + 1 = 21` nodes fails fatally. -/
theorem fatal_iff_validation_fails_witness :
    ∃ o, read_lakeparam E_unit 1 temp_100 [line_21] cell_1 1 0 = some o ∧ o.isFatal = true := by
  obtain ⟨o, ho, hiff⟩ :=
    fatal_iff_validation_fails E_unit 1 temp_100 [line_21] cell_1 1 0 line_21 locate_line_21
  exact ⟨o, ho, hiff.mpr (Or.inl (by norm_num [line_21, E_unit, libm]))⟩

/-- For the line with fractions 1, 0.6, 0.2 and `*Cv_sum = 0.5`, where line 210
changes `Cl[0]`, the returned `basin[0]` is the grid cell area. -/
theorem basin_eq_fraction_times_cell_area_witness :
    (read_lakeparam E_unit 1 temp_100 [line_3] cell_1 1 0.5).bind
        (fun o => o.temp.map (fun t => t.basin 0))
      = some (1 * cell_area E_unit 45 10 1) := by
  have hrun := read_lakeparam_of_locate E_unit 1 temp_100 [line_3] cell_1 1 0.5 line_3
    locate_line_3
  obtain ⟨t, cv, h⟩ := read_params_accepts E_unit
    { temp_100 with
      cell_area := cell_area E_unit cell_1.lat cell_1.lng 1
      gridcel := line_3.gridcel } line_3 0.5
    (by norm_num [line_3, E_unit, libm]) (by norm_num [line_3]) line_3_tail_ok
  rw [h] at hrun
  have hb := (basin_eq_fraction_times_cell_area E_unit 1 temp_100 [line_3] cell_1 1 0.5 line_3
    t cv locate_line_3 hrun 0 (by norm_num [line_3])).2
  rw [hrun]
  simp only [Option.some_bind, Outcome.temp, Option.map_some']
  rw [hb]
  simp [line_3, cell_1]

/-- A file whose only line is for cell 1, scanned for cell 2: the loop is still
running after 1000 tests of its condition. -/
theorem scan_without_match_never_ends_witness :
    read_lakeparam E_unit 1000 temp_100 [line_3] cell_2 1 0 = none :=
  scan_without_match_never_ends E_unit temp_100 [line_3] cell_2 1 0
    (by intro r hr; rw [List.mem_singleton] at hr; subst hr; simp [line_3, cell_2])
    (Or.inl (by simp)) 1000

section Geodesic

variable {α : Type} [LinearOrderedField α]

/-- C6: the computed grid cell area does not change when the latitude, the
longitude or both are replaced by their negatives. -/
theorem cell_area_sign_symmetric (E : Env α) (lat lon res : α) :
    cell_area E lat lon res = cell_area E (-lat) lon res ∧
      cell_area E lat lon res = cell_area E lat (-lon) res ∧
      cell_area E lat lon res = cell_area E (-lat) (-lon) res := by
  simp only [cell_area, abs_neg, and_self]

end Geodesic

section StripSum

variable {α : Type} [LinearOrderedField α]

end StripSum

section Returned

variable {α : Type} [LinearOrderedField α]

/-- The accumulator and `temp.Cl[0]` at the return, in terms of the value `g`
that `temp.Cl[0]` holds after the loops. -/
theorem read_params_Cv (E : Env α) (temp : lake_con_struct α) (r : ParamLine α) (c : α)
    (t : lake_con_struct α) (cv : α) (h : read_params E temp r c = .done t cv) :
    ∃ g : α, (1 ≤ r.numnod → g = r.tail 0) ∧
      (0.999 < c + g → cv = 1 ∧ t.Cl 0 = g + (1 - (c + g))) ∧
      (¬ 0.999 < c + g → cv = c + g ∧ t.Cl 0 = g) := by
  obtain ⟨_, _, _, h4⟩ := read_params_done E temp r c t cv h
  rw [volume_loop_eq] at h4
  obtain ⟨_, _, _, _, _, _, e7, e8, _⟩ := add_lake_fraction_done _ t c cv h4
  refine ⟨(area_result E (layer_dz E r) r.tail r.numnod.toNat (params_read temp r)).Cl 0,
    ?_, e7, ?_⟩
  · intro h1
    have hpos : 0 < r.numnod.toNat := by omega
    simp only [area_result, if_pos hpos]
  · intro hn
    obtain ⟨e9, e10⟩ := e8 hn
    exact ⟨e9, by rw [e10]⟩

/-- C12: for every pre-value of `*Cv_sum` and every accepted line, the
accumulator after the run is at most 1: it is exactly 1 or at most 0.999. -/
theorem Cv_sum_le_one (E : Env α) (temp : lake_con_struct α) (r : ParamLine α) (c : α)
    (t : lake_con_struct α) (cv : α) (hacc : read_params E temp r c = .done t cv) :
    cv ≤ 1 ∧ (cv = 1 ∨ cv ≤ 0.999) := by
  obtain ⟨g, _, ha, hb⟩ := read_params_Cv E temp r c t cv hacc
  by_cases hc : 0.999 < c + g
  · obtain ⟨e, _⟩ := ha hc
    exact ⟨le_of_eq e, Or.inl e⟩
  · obtain ⟨e, _⟩ := hb hc
    have hle : cv ≤ 0.999 := by rw [e]; exact not_lt.mp hc
    refine ⟨le_trans hle (by norm_num), Or.inr hle⟩

/-- A fatal outcome of lines 129-212 carries the value `*Cv_sum` had before. -/
theorem read_params_fatal_Cv (E : Env α) (temp : lake_con_struct α) (r : ParamLine α) (c : α)
    (err : Fatal) (cv : α) (h : read_params E temp r c = .fatal err cv) : cv = c := by
  rw [read_params_eq] at h
  split_ifs at h with h1 h2 h3
  · injection h with _ e; exact e.symm
  · injection h with _ e; exact e.symm
  · unfold add_lake_fraction at h
    simp only [] at h
    split_ifs at h
  · injection h with _ e; exact e.symm

/-- C17: whenever `read_lakeparam` ends in `nrerror` (cell not found, too many
nodes, initial depth above the maximum depth, or an area fraction outside
`[0, 1]`), `*Cv_sum` still holds its value from before the call. -/
theorem fatal_keeps_Cv_sum (E : Env α) (fuel : Nat) (temp0 : lake_con_struct α)
    (file : List (ParamLine α)) (soil_con : soil_con_struct α) (res c : α)
    (err : Fatal) (cv : α)
    (hfatal : read_lakeparam E fuel temp0 file soil_con res c = some (.fatal err cv)) :
    cv = c := by
  unfold read_lakeparam at hfatal
  simp only [] at hfatal
  split at hfatal
  · exact absurd hfatal (by simp)
  · injection hfatal with h
    injection h with _ e
    exact e.symm
  · injection hfatal with h
    exact read_params_fatal_Cv E _ _ c err cv h

end Returned
section Depths

variable {α : Type} [LinearOrderedField α]

/-- The layer thickness is positive when `maxdepth > SURF` and there are at
least two nodes. -/
theorem layer_dz_pos (E : Env α) (r : ParamLine α) (h2 : 2 ≤ r.numnod)
    (hD : E.SURF < r.maxdepth) : 0 < layer_dz E r := by
  have h1 : (1 : α) < (r.numnod : α) := by exact_mod_cast (by omega : (1 : Int) < r.numnod)
  unfold layer_dz
  exact div_pos (by linarith) (by linarith)

/-- The depths of lines 187-190 decrease strictly with the node index. -/
theorem node_depth_strictAnti (E : Env α) (r : ParamLine α) (h2 : 2 ≤ r.numnod)
    (hS : 0 < E.SURF) (hD : E.SURF < r.maxdepth) (i j : Nat) (hij : i < j)
    (hj : (j : Int) < r.numnod) :
    node_depth E (layer_dz E r) r.numnod j < node_depth E (layer_dz E r) r.numnod i := by
  have hdz := layer_dz_pos E r h2 hD
  have hj0 : j ≠ 0 := by omega
  have hjn : (j : α) < (r.numnod : α) := by exact_mod_cast hj
  have hijc : (i : α) < (j : α) := by exact_mod_cast hij
  simp only [node_depth, if_neg hj0]
  push_cast
  by_cases hi0 : i = 0
  · subst hi0
    simp only [if_true]
    have h1j : (1 : α) ≤ (j : α) := by exact_mod_cast (by omega : 1 ≤ j)
    nlinarith
  · simp only [if_neg hi0]
    nlinarith

/-- C19: for an accepted line with at least two nodes and `maxdepth > SURF > 0`,
the returned depths decrease strictly with the node index, the last one is
`tempdz`, and all of them are positive. -/
theorem node_depths_decreasing (E : Env α) (temp : lake_con_struct α) (r : ParamLine α) (c : α)
    (t : lake_con_struct α) (cv : α) (hacc : read_params E temp r c = .done t cv)
    (h2 : 2 ≤ r.numnod) (hD : E.SURF < r.maxdepth) (hS : 0 < E.SURF) :
    (∀ i j : Nat, i < j → (j : Int) < r.numnod → t.z j < t.z i) ∧
      t.z (r.numnod.toNat - 1) = layer_dz E r ∧
      0 < layer_dz E r ∧
      ∀ i : Nat, (i : Int) < r.numnod → 0 < t.z i := by
  obtain ⟨_, _, _, _, hz, _⟩ := read_params_fields E temp r c t cv hacc
  have hdz := layer_dz_pos E r h2 hD
  have hzi : ∀ i : Nat, (i : Int) < r.numnod →
      t.z i = node_depth E (layer_dz E r) r.numnod i := by
    intro i hi
    have hlt : i < r.numnod.toNat := by omega
    rw [hz i, if_pos hlt]
  have hlast : t.z (r.numnod.toNat - 1) = layer_dz E r := by
    rw [hzi (r.numnod.toNat - 1) (by omega)]
    have hne : r.numnod.toNat - 1 ≠ 0 := by omega
    simp only [node_depth, if_neg hne]
    have e : r.numnod - ((r.numnod.toNat - 1 : Nat) : Int) = 1 := by omega
    rw [e]
    simp
  have hanti : ∀ i j : Nat, i < j → (j : Int) < r.numnod → t.z j < t.z i := by
    intro i j hij hj
    rw [hzi j hj, hzi i (by omega)]
    exact node_depth_strictAnti E r h2 hS hD i j hij hj
  refine ⟨hanti, hlast, hdz, ?_⟩
  intro i hi
  by_cases hil : i = r.numnod.toNat - 1
  · rw [hil, hlast]; exact hdz
  · have := hanti i (r.numnod.toNat - 1) (by omega) (by omega)
    rw [hlast] at this
    linarith

end Depths
section Reads

variable {α : Type} [LinearOrderedField α]

/-- The amount added for index `i` depends on `temp.basin` only through the
indices in `volume_reads`. -/
theorem volume_term_congr (E : Env α) (tempdz : α) (temp temp1 : lake_con_struct α) (i : Nat)
    (hn : temp.numnod = temp1.numnod)
    (hb : ∀ j ∈ volume_reads temp.numnod i, temp.basin j = temp1.basin j) :
    volume_term E tempdz temp i = volume_term E tempdz temp1 i := by
  unfold volume_term
  rw [← hn]
  unfold volume_reads at hb
  split_ifs with h0 h1
  · rw [if_pos h0] at hb
    rw [hb 0 (by simp), hb 1 (by simp)]
  · rw [if_neg h0, if_pos h1] at hb
    rw [hb i (by simp), hb (i + 1) (by simp)]
  · rw [if_neg h0, if_neg h1] at hb
    rw [hb i (by simp)]

/-- With at least two nodes every index read for `i < numnod` is below `numnod`. -/
theorem volume_reads_lt (numnod : Int) (h2 : 2 ≤ numnod) (i j : Nat) (hi : (i : Int) < numnod)
    (hj : j ∈ volume_reads numnod i) : (j : Int) < numnod := by
  unfold volume_reads at hj
  split_ifs at hj with h0 h1
  · simp only [List.mem_cons, List.mem_singleton, List.not_mem_nil, or_false] at hj
    rcases hj with e | e <;> omega
  · simp only [List.mem_cons, List.mem_singleton, List.not_mem_nil, or_false] at hj
    rcases hj with e | e <;> omega
  · simp only [List.mem_singleton] at hj
    omega

/-- C14: for a line with `2 ≤ numnod ≤ MAX_LAKE_NODES` the divisor `numnod - 1`
of line 147 is not zero; every index of `temp.basin` read by the second loop
is below `numnod` (and below `MAX_LAKE_NODES`); an iteration of that loop depends
on `temp.basin` only through those indices; and so the returned `maxvolume`
does not depend on the initial contents of `temp` other than `cell_area`. -/
theorem volume_reads_populated (E : Env α) (r : ParamLine α) (h2 : 2 ≤ r.numnod)
    (hmax : r.numnod ≤ E.MAX_LAKE_NODES) :
    (r.numnod : α) - 1 ≠ 0 ∧
      (∀ i j : Nat, (i : Int) < r.numnod → j ∈ volume_reads r.numnod i →
        (j : Int) < r.numnod ∧ (j : Int) < E.MAX_LAKE_NODES) ∧
      (∀ (tempdz : α) (temp temp1 : lake_con_struct α) (i : Nat),
        temp.numnod = r.numnod → temp1.numnod = r.numnod →
        (∀ j ∈ volume_reads r.numnod i, temp.basin j = temp1.basin j) →
        volume_step E tempdz i temp =
          { temp with maxvolume := temp.maxvolume + volume_term E tempdz temp1 i }) ∧
      (∀ (temp temp1 : lake_con_struct α) (c c1 : α), temp.cell_area = temp1.cell_area →
        (read_params E temp r c).temp.map (fun t => t.maxvolume)
          = (read_params E temp1 r c1).temp.map (fun t => t.maxvolume)) := by
  refine ⟨?_, ?_, ?_, ?_⟩
  · have h1 : (1 : α) < (r.numnod : α) := by exact_mod_cast (by omega : (1 : Int) < r.numnod)
    exact ne_of_gt (by linarith)
  · intro i j hi hj
    have := volume_reads_lt r.numnod h2 i j hi hj
    exact ⟨this, by omega⟩
  · intro tempdz temp temp1 i hn hn1 hb
    rw [volume_step_eq, volume_term_congr E tempdz temp temp1 i (by rw [hn, hn1])
      (by rw [hn]; exact hb)]
  · intro temp temp1 c c1 hca
    by_cases hok : ¬ E.MAX_LAKE_NODES < r.numnod ∧ ¬ r.maxdepth < r.depth_in ∧
        ∀ j, j < r.numnod.toNat → (0 ≤ r.tail j ∧ r.tail j ≤ 1)
    · obtain ⟨k1, k2, k3⟩ := hok
      obtain ⟨t, cv, h⟩ := read_params_accepts E temp r c (not_lt.mp k1) (not_lt.mp k2) k3
      obtain ⟨t1, cv1, h1⟩ := read_params_accepts E temp1 r c1 (not_lt.mp k1) (not_lt.mp k2) k3
      obtain ⟨_, _, _, _, _, hv⟩ := read_params_fields E temp r c t cv h
      obtain ⟨_, _, _, _, _, hv1⟩ := read_params_fields E temp1 r c1 t1 cv1 h1
      rw [h, h1]
      simp only [Outcome.temp, Option.map_some', Option.some.injEq]
      rw [hv, hv1]
      apply Finset.sum_congr rfl
      intro i hi
      rw [Finset.mem_range] at hi
      apply volume_term_congr
      · rfl
      · intro j hj
        have hjn : (j : Int) < r.numnod :=
          volume_reads_lt r.numnod h2 i j (by omega) hj
        have hjl : j < r.numnod.toNat := by omega
        simp only [area_result, if_pos hjl, params_read, hca]
    · have hf : (read_params E temp r c).isFatal = true := by
        rw [read_params_isFatal]
        by_contra hcon
        push_neg at hcon
        apply hok
        refine ⟨not_lt.mpr hcon.1, not_lt.mpr hcon.2.1, ?_⟩
        intro j hj
        have := hcon.2.2 j (by omega)
        exact ⟨this.1, this.2⟩
      have hf1 : (read_params E temp1 r c1).isFatal = true := by
        rw [read_params_isFatal]
        by_contra hcon
        push_neg at hcon
        apply hok
        refine ⟨not_lt.mpr hcon.1, not_lt.mpr hcon.2.1, ?_⟩
        intro j hj
        have := hcon.2.2 j (by omega)
        exact ⟨this.1, this.2⟩
      cases hA : read_params E temp r c with
      | done t cv => rw [hA] at hf; simp [Outcome.isFatal] at hf
      | fatal e cv =>
        cases hB : read_params E temp1 r c1 with
        | done t cv => rw [hB] at hf1; simp [Outcome.isFatal] at hf1
        | fatal e1 cv1 => rfl

end Reads

section Ordering

variable {α : Type} [LinearOrderedField α]

/-- C13 (amended): for an accepted line with at least two nodes,
`maxdepth > SURF > 0`, a grid cell area `≥ 0` and area fractions that do not
increase with the node index, a node with a smaller `z` has an area that is at
most the area of a node with a larger `z`. -/
theorem basin_order_follows_fractions (E : Env α) (temp : lake_con_struct α) (r : ParamLine α)
    (c : α) (t : lake_con_struct α) (cv : α) (hacc : read_params E temp r c = .done t cv)
    (hA : 0 ≤ temp.cell_area) (h2 : 2 ≤ r.numnod) (hD : E.SURF < r.maxdepth) (hS : 0 < E.SURF)
    (hmono : ∀ a b : Nat, a ≤ b → (b : Int) < r.numnod → r.tail b ≤ r.tail a)
    (i j : Nat) (hi : (i : Int) < r.numnod) (hj : (j : Int) < r.numnod)
    (hz : t.z i < t.z j) :
    t.basin i ≤ t.basin j := by
  obtain ⟨_, _, _, hb, hzz, _⟩ := read_params_fields E temp r c t cv hacc
  have hil : i < r.numnod.toNat := by omega
  have hjl : j < r.numnod.toNat := by omega
  rw [hzz i, hzz j, if_pos hil, if_pos hjl] at hz
  have hji : j < i := by
    by_contra hcon
    rcases Nat.lt_or_eq_of_le (not_lt.mp hcon) with hlt | heq
    · have := node_depth_strictAnti E r h2 hS hD i j hlt hj
      exact absurd hz (not_lt.mpr this.le)
    · rw [heq] at hz
      exact absurd hz (lt_irrefl _)
  rw [hb i, hb j, if_pos hil, if_pos hjl]
  exact mul_le_mul_of_nonneg_right (hmono j i hji.le hi) hA

end Ordering

theorem line_rising_tail_ok :
    ∀ j, j < line_rising.numnod.toNat → (0 ≤ line_rising.tail j ∧ line_rising.tail j ≤ 1) := by
  intro j _
  simp only [line_rising]
  split_ifs <;> norm_num

theorem line_3_tail_anti :
    ∀ a b : Nat, a ≤ b → (b : Int) < line_3.numnod → line_3.tail b ≤ line_3.tail a := by
  intro a b hab hb
  have hb3 : b < 3 := by simp only [line_3] at hb; omega
  interval_cases b <;> interval_cases a <;> simp only [line_3] <;> norm_num

/-- The depths and areas returned for `line_3` on a cell of area 100. -/
theorem line_3_values (c : ℝ) (t : lake_con_struct ℝ) (cv : ℝ)
    (h : read_params E_unit temp_100 line_3 c = .done t cv) :
    t.z 0 = 5 ∧ t.z 2 = 2 ∧ t.basin 0 = 100 ∧ t.basin 2 = 20 := by
  obtain ⟨_, _, _, hb, hz, _⟩ := read_params_fields E_unit temp_100 line_3 c t cv h
  have hn : line_3.numnod.toNat = 3 := rfl
  have hdz : layer_dz E_unit line_3 = 2 := by
    norm_num [layer_dz, line_3, E_unit, libm]
  refine ⟨?_, ?_, ?_, ?_⟩
  · rw [hz 0, hn, hdz]; norm_num [node_depth, line_3, E_unit, libm]
  · rw [hz 2, hn, hdz]; norm_num [node_depth, line_3, E_unit, libm]
  · rw [hb 0, hn]; norm_num [line_3, temp_100]
  · rw [hb 2, hn]; norm_num [line_3, temp_100]

/-- The depths and areas returned for `line_rising` on a cell of area 100. -/
theorem line_rising_values (c : ℝ) (t : lake_con_struct ℝ) (cv : ℝ)
    (h : read_params E_unit temp_100 line_rising c = .done t cv) :
    t.z 0 = 5 ∧ t.z 2 = 2 ∧ t.basin 0 = 20 ∧ t.basin 2 = 100 := by
  obtain ⟨_, _, _, hb, hz, _⟩ := read_params_fields E_unit temp_100 line_rising c t cv h
  have hn : line_rising.numnod.toNat = 3 := rfl
  have hdz : layer_dz E_unit line_rising = 2 := by
    norm_num [layer_dz, line_rising, E_unit, libm]
  refine ⟨?_, ?_, ?_, ?_⟩
  · rw [hz 0, hn, hdz]; norm_num [node_depth, line_rising, E_unit, libm]
  · rw [hz 2, hn, hdz]; norm_num [node_depth, line_rising, E_unit, libm]
  · rw [hb 0, hn]; norm_num [line_rising, temp_100]
  · rw [hb 2, hn]; norm_num [line_rising, temp_100]

/-- C13 (counterexample): on a cell of area 100 the line with fractions 1, 0.6,
0.2 returns `z[2] = 2 < z[0] = 5` with `basin[2] = 20 < basin[0] = 100`, against
the claim; and the line with fractions 0.2, 0.6, 1 is accepted as well and
returns the opposite order of the areas for the same depths. -/
theorem basin_not_ordered_by_depth :
    (∃ t cv, read_params E_unit temp_100 line_3 0 = .done t cv ∧
        (0 : Int) < line_3.numnod ∧ (2 : Int) < line_3.numnod ∧
        t.z 2 < t.z 0 ∧ ¬ (t.basin 2 ≥ t.basin 0)) ∧
      (∃ t cv, read_params E_unit temp_100 line_rising 0 = .done t cv ∧
        (0 : Int) < line_rising.numnod ∧ (2 : Int) < line_rising.numnod ∧
        t.z 2 < t.z 0 ∧ ¬ (t.basin 2 ≤ t.basin 0)) := by
  constructor
  · obtain ⟨t, cv, h⟩ := read_params_accepts E_unit temp_100 line_3 0
      (by norm_num [line_3, E_unit, libm]) (by norm_num [line_3]) line_3_tail_ok
    obtain ⟨z0, z2, b0, b2⟩ := line_3_values 0 t cv h
    refine ⟨t, cv, h, by norm_num [line_3], by norm_num [line_3], ?_, ?_⟩
    · rw [z0, z2]; norm_num
    · rw [b0, b2]; norm_num
  · obtain ⟨t, cv, h⟩ := read_params_accepts E_unit temp_100 line_rising 0
      (by norm_num [line_rising, E_unit, libm]) (by norm_num [line_rising]) line_rising_tail_ok
    obtain ⟨z0, z2, b0, b2⟩ := line_rising_values 0 t cv h
    refine ⟨t, cv, h, by norm_num [line_rising], by norm_num [line_rising], ?_, ?_⟩
    · rw [z0, z2]; norm_num
    · rw [b0, b2]; norm_num

/-- For the line with fractions 1, 0.6, 0.2: `z[2] < z[0]` and
`basin[2] ≤ basin[0]`. -/
theorem basin_order_follows_fractions_witness :
    ∃ t cv, read_params E_unit temp_100 line_3 0 = .done t cv ∧ t.z 2 < t.z 0 ∧
      t.basin 2 ≤ t.basin 0 := by
  obtain ⟨t, cv, h⟩ := read_params_accepts E_unit temp_100 line_3 0
    (by norm_num [line_3, E_unit, libm]) (by norm_num [line_3]) line_3_tail_ok
  obtain ⟨z0, z2, _, _⟩ := line_3_values 0 t cv h
  have hz : t.z 2 < t.z 0 := by rw [z0, z2]; norm_num
  exact ⟨t, cv, h, hz, basin_order_follows_fractions E_unit temp_100 line_3 0 t cv h
    (by norm_num [temp_100]) (by norm_num [line_3]) (by norm_num [line_3, E_unit, libm])
    (by norm_num [E_unit, libm]) line_3_tail_anti 2 0 (by norm_num [line_3])
    (by norm_num [line_3]) hz⟩

/-- With `*Cv_sum = 0.9995` and a first fraction of 0.002 the accumulator ends
at most at 1. -/
theorem Cv_sum_le_one_witness :
    ∃ t cv, read_params E_unit temp_100 line_small 0.9995 = .done t cv ∧ cv ≤ 1 := by
  obtain ⟨t, cv, h⟩ := read_params_accepts E_unit temp_100 line_small 0.9995
    (by norm_num [line_small, E_unit, libm]) (by norm_num [line_small]) line_small_tail_ok
  exact ⟨t, cv, h, (Cv_sum_le_one E_unit temp_100 line_small 0.9995 t cv h).1⟩

/-- A line that declares 21 nodes, read with `*Cv_sum = 0.25`: the run fails
and the accumulator is still 0.25. -/
theorem fatal_keeps_Cv_sum_witness :
    ∃ err cv, read_lakeparam E_unit 1 temp_100 [line_21] cell_1 1 0.25
        = some (.fatal err cv) ∧ cv = 0.25 := by
  have hrun := read_lakeparam_of_locate E_unit 1 temp_100 [line_21] cell_1 1 0.25 line_21
    locate_line_21
  rw [read_params_eq, if_pos (by norm_num [line_21, E_unit, libm])] at hrun
  exact ⟨_, _, hrun,
    fatal_keeps_Cv_sum E_unit 1 temp_100 [line_21] cell_1 1 0.25 _ _ hrun⟩

/-- For the line with maximum depth 5, three nodes and `SURF = 1` the depths
satisfy `z[0] > z[1] > z[2] > 0`. -/
theorem node_depths_decreasing_witness :
    ∃ t cv, read_params E_unit temp_100 line_3 0 = .done t cv ∧
      t.z 1 < t.z 0 ∧ t.z 2 < t.z 1 ∧ 0 < t.z 2 := by
  obtain ⟨t, cv, h⟩ := read_params_accepts E_unit temp_100 line_3 0
    (by norm_num [line_3, E_unit, libm]) (by norm_num [line_3]) line_3_tail_ok
  obtain ⟨ha, _, _, hp⟩ := node_depths_decreasing E_unit temp_100 line_3 0 t cv h
    (by norm_num [line_3]) (by norm_num [line_3, E_unit, libm]) (by norm_num [E_unit, libm])
  exact ⟨t, cv, h, ha 0 1 (by norm_num) (by norm_num [line_3]),
    ha 1 2 (by norm_num) (by norm_num [line_3]), hp 2 (by norm_num [line_3])⟩

/-- For the line with three nodes the returned volume is the same whatever the
initial contents of the arrays of `temp`. -/
theorem volume_reads_populated_witness :
    (read_params E_unit temp_100 line_3 0).temp.map (fun t => t.maxvolume)
      = (read_params E_unit temp_other line_3 0.5).temp.map (fun t => t.maxvolume) :=
  (volume_reads_populated E_unit line_3 (by norm_num [line_3])
    (by norm_num [line_3, E_unit, libm])).2.2.2 temp_100 temp_other 0 0.5 rfl

end LakeParam
